import Mathlib

/-!
Verification of the workflow-orchestration core of the company-intelligence
repository (`src/orchestrator/supervisor.py`, `src/main.py`) against its
natural-language specification.

Embedding conventions:
* Python dicts with a known key set become structures whose fields are
  `Option`-valued (`none` = key absent); Python `dict.get(k, d)` becomes
  `Option.getD`.
* The two data-producing collaborators (`collect_data_directly`,
  `analyze_data_directly`) are out of scope per the spec and appear as
  oracle parameters returning `Except String _` (the `error` branch models a
  raised exception whose `str(e)` is the carried message).
* Numbers that Python holds as floats are modelled as rationals; the helpers
  that render them into report text (`fmtQ`, `fmt2`) abstract CPython's
  float formatting.  No claim depends on the rendered digits.
* `AgentState`, `create_initial_state` and the merge reducers live in
  `src/state/shared_state.py`, which is not among the provided sources, and
  the executor is LangGraph's engine; both are modelled from the spec where
  indicated.
-/

namespace SoulpageIntel

/-- A news article as consumed by the report generator: a dict with the keys
`headline`, `source`, `category`, `sentiment_score` (each possibly absent,
matching the `.get` accesses in the source). -/
structure Article where
  headline : Option String
  source : Option String
  category : Option String
  sentiment_score : Option ℚ
deriving DecidableEq

/-- Stock data as consumed by `format_stock_for_summary` and
`report_generator_node`: a dict over the keys the source reads, each possibly
absent.  `error` models the presence of an `"error"` key (as produced by
`stock_data_tool`'s exception path).  `week52_low`/`week52_high` stand for the
Python keys `"52_week_low"`/`"52_week_high"`. -/
structure StockData where
  error : Option String
  current_price : Option ℚ
  currency : Option String
  daily_change_percent : Option ℚ
  monthly_change_percent : Option ℚ
  week52_low : Option ℚ
  week52_high : Option ℚ
  market_cap : Option ℤ
  pe_ratio : Option ℚ
  sector : Option String
deriving DecidableEq

/-- The stock dict with every tracked key absent: Python's `{}` (the default of
`state.get("stock_data", {})`). -/
def emptyStock : StockData :=
  ⟨none, none, none, none, none, none, none, none, none, none⟩

/-- Python truthiness of a stock dict (`if stock_data:`): an empty dict is
falsy.  Modelled over the keys the source reads. -/
def StockData.isEmptyDict (sd : StockData) : Bool :=
  sd.error.isNone && sd.current_price.isNone && sd.currency.isNone &&
  sd.daily_change_percent.isNone && sd.monthly_change_percent.isNone &&
  sd.week52_low.isNone && sd.week52_high.isNone && sd.market_cap.isNone &&
  sd.pe_ratio.isNone && sd.sector.isNone

/-- Modelled from the spec: the Aggregate State (`AgentState` in
`src/state/shared_state.py`, not among the provided sources).  Field list per
spec section 3: session subject, per-stage payloads, derived outputs, event
log (`messages`), current stage marker, error, final output. -/
structure AgentState where
  company_name : String
  news_data : Option (List Article)
  stock_data : Option StockData
  analysis : Option String
  risk_factors : Option (List String)
  current_agent : Option String
  error : Option String
  final_report : Option String
  messages : List String
deriving DecidableEq

/-- A partial state update as returned by a stage node: a dict holding only
the keys the node wrote (`some` = key present), plus the list of new event-log
entries. -/
structure StateUpdate where
  company_name : Option String
  news_data : Option (List Article)
  stock_data : Option StockData
  analysis : Option String
  risk_factors : Option (List String)
  current_agent : Option String
  error : Option String
  final_report : Option String
  messages : List String
deriving DecidableEq

/-- The empty partial update (Python `{}`). -/
def emptyUpdate : StateUpdate :=
  ⟨none, none, none, none, none, none, none, none, []⟩

/-- Replace-policy merge of one field: a key present in the partial update
overwrites, an absent key leaves the old value. -/
def repl {α : Type} (new old : Option α) : Option α :=
  match new with
  | some v => some v
  | none => old

/-- Modelled from the spec: the Merge Engine (spec section 4.1) applied to the
field policies of section 3 — every field is replace-on-present except the
event log `messages`, which appends preserving order. -/
def applyUpdate (s : AgentState) (u : StateUpdate) : AgentState :=
  { company_name := u.company_name.getD s.company_name
    news_data := repl u.news_data s.news_data
    stock_data := repl u.stock_data s.stock_data
    analysis := repl u.analysis s.analysis
    risk_factors := repl u.risk_factors s.risk_factors
    current_agent := repl u.current_agent s.current_agent
    error := repl u.error s.error
    final_report := repl u.final_report s.final_report
    messages := s.messages ++ u.messages }

/-- Batching of two sequential partial updates into one, preserving the
relative order of both the replace fields (later wins) and the appended
event-log entries. -/
def combineUpdates (u1 u2 : StateUpdate) : StateUpdate :=
  { company_name := repl u2.company_name u1.company_name
    news_data := repl u2.news_data u1.news_data
    stock_data := repl u2.stock_data u1.stock_data
    analysis := repl u2.analysis u1.analysis
    risk_factors := repl u2.risk_factors u1.risk_factors
    current_agent := repl u2.current_agent u1.current_agent
    error := repl u2.error u1.error
    final_report := repl u2.final_report u1.final_report
    messages := u1.messages ++ u2.messages }

/-- Modelled from the spec: `create_initial_state` (in the missing
`src/state/shared_state.py`); spec section 4.4 step 1: "a fresh state seeded
with the run's initial subject field". -/
def create_initial_state (company_name : String) : AgentState :=
  { company_name := company_name
    news_data := none
    stock_data := none
    analysis := none
    risk_factors := none
    current_agent := none
    error := none
    final_report := none
    messages := [] }

/-- Result dict of `collect_data_directly` (the keys `data_collector_node`
reads). -/
structure CollectResult where
  news_data : List Article
  stock_data : StockData
deriving DecidableEq

/-- Result dict of `analyze_data_directly` (the keys `analyst_node` reads). -/
structure AnalyzeResult where
  analysis : String
  risk_factors : List String
deriving DecidableEq

/-- The data-collection collaborator (`collect_data_directly`), out of scope
per the spec and abstracted as an oracle: given the company name it either
returns its result dict or raises with message `e` (`Except.error e`). -/
def Collector : Type := String → Except String CollectResult

/-- The analysis collaborator (`analyze_data_directly`), abstracted as an
oracle over the arguments the node passes it. -/
def Analyzer : Type := String → List Article → StockData → Except String AnalyzeResult

/-- `data_collector_node` from `src/orchestrator/supervisor.py`: runs the
collector on `state["company_name"]`; on success returns the partial update
with the collected data, the stage marker and a log entry; on an exception
returns the update `{error, current_agent, messages}`. -/
def data_collector_node (collect : Collector) (state : AgentState) : StateUpdate :=
  let company_name := state.company_name
  match collect company_name with
  | Except.ok result =>
      let news_count := result.news_data.length
      { emptyUpdate with
          news_data := some result.news_data
          stock_data := some result.stock_data
          current_agent := some "data_collector"
          messages := ["Collected " ++ toString news_count ++
            " news articles and stock data for " ++ company_name] }
  | Except.error e =>
      { emptyUpdate with
          error := some e
          current_agent := some "data_collector"
          messages := ["Error collecting data: " ++ e] }

/-- `analyst_node` from `src/orchestrator/supervisor.py`: reads
`company_name`, `news_data` (default `[]`) and `stock_data` (default `{}`)
from the state and runs the analyzer on them. -/
def analyst_node (analyze : Analyzer) (state : AgentState) : StateUpdate :=
  let company_name := state.company_name
  let news_data := state.news_data.getD []
  let stock_data := state.stock_data.getD emptyStock
  match analyze company_name news_data stock_data with
  | Except.ok result =>
      let risk_count := result.risk_factors.length
      { emptyUpdate with
          analysis := some result.analysis
          risk_factors := some result.risk_factors
          current_agent := some "analyst"
          messages := ["Completed analysis with " ++ toString risk_count ++
            " risk factors identified"] }
  | Except.error e =>
      { emptyUpdate with
          error := some e
          current_agent := some "analyst"
          messages := ["Error analyzing data: " ++ e] }

/-- Python `str.join`: `joinSep sep xs` is `sep.join(xs)`. -/
def joinSep (sep : String) : List String → String
  | [] => ""
  | [x] => x
  | x :: y :: ys => x ++ sep ++ joinSep sep (y :: ys)

/-- Python `str.upper()` (ASCII case mapping, as used on company names),
mapping `Char.toUpper` over the characters. -/
def pyUpper (s : String) : String := String.mk (s.data.map Char.toUpper)

/-- Helper for `pyTitle`: uppercase a character following a non-letter,
lowercase the rest, tracking whether the previous character was a letter. -/
def pyTitleAux : List Char → Bool → List Char
  | [], _ => []
  | c :: cs, prevAlpha =>
      (if prevAlpha then c.toLower else c.toUpper) :: pyTitleAux cs c.isAlpha

/-- Python `str.title()` (ASCII), as applied to news categories. -/
def pyTitle (s : String) : String := String.mk (pyTitleAux s.data false)

/-- Decimal digits of the fractional part `r/d` (at most `fuel` digits,
stopping at an exact expansion). -/
def fracDigits : Nat → Int → Int → List Char
  | 0, _, _ => []
  | fuel + 1, r, d =>
      if r = 0 then []
      else
        let r10 := r * 10
        Char.ofNat (48 + (r10 / d).toNat) :: fracDigits fuel (r10 % d) d

/-- Decimal rendering of a rational.  Abstracts CPython's float `repr` used
when the source interpolates a float into an f-string; no claim depends on
the rendered digits. -/
def fmtQ (q : ℚ) : String :=
  let sign := if q < 0 then "-" else ""
  let a := |q|
  let ip : Int := a.num / (a.den : Int)
  let ds := fracDigits 6 (a.num % (a.den : Int)) (a.den : Int)
  sign ++ toString ip ++ "." ++ (if ds.isEmpty then "0" else String.mk ds)

/-- Python `f"{x:.2f}"` on a rational, rounding half away from zero.
Abstracts CPython float formatting; no claim depends on the digits. -/
def fmt2 (q : ℚ) : String :=
  let sign := if q < 0 then "-" else ""
  let m : Int := ⌊|q| * 100 + 1 / 2⌋
  sign ++ toString (m / 100) ++ "." ++
    toString ((m % 100) / 10) ++ toString (m % 10)

/-- Interpolation of `stock_data.get(key, 'N/A')` for a numeric key. -/
def optNumStr (v : Option ℚ) : String :=
  match v with
  | some q => fmtQ q
  | none => "N/A"

/-- `format_market_cap` from `format_stock_for_summary` in
`src/tools/summary_generator.py` (`None` renders as `"N/A"`; the final branch
abstracts Python's thousands separators). -/
def format_market_cap (cap : Option ℤ) : String :=
  match cap with
  | none => "N/A"
  | some c =>
      if c ≥ 1000000000000 then "$" ++ fmt2 ((c : ℚ) / 1000000000000) ++ "T"
      else if c ≥ 1000000000 then "$" ++ fmt2 ((c : ℚ) / 1000000000) ++ "B"
      else if c ≥ 1000000 then "$" ++ fmt2 ((c : ℚ) / 1000000) ++ "M"
      else "$" ++ toString c

/-- `format_stock_for_summary` from `src/tools/summary_generator.py`. -/
def format_stock_for_summary (stock_data : StockData) : String :=
  if stock_data.isEmptyDict || stock_data.error.isSome then
    "Stock data unavailable."
  else
    let daily_trend := if stock_data.daily_change_percent.getD 0 > 0 then "up" else "down"
    let monthly_trend := if stock_data.monthly_change_percent.getD 0 > 0 then "up" else "down"
    "Stock Performance Summary:\n" ++
    "- Current Price: $" ++ optNumStr stock_data.current_price ++ " " ++
      stock_data.currency.getD "USD" ++ "\n" ++
    "- Daily Change: " ++ optNumStr stock_data.daily_change_percent ++ "% (" ++
      daily_trend ++ ")\n" ++
    "- Monthly Change: " ++ optNumStr stock_data.monthly_change_percent ++ "% (" ++
      monthly_trend ++ ")\n" ++
    "- 52-Week Range: $" ++ optNumStr stock_data.week52_low ++ " - $" ++
      optNumStr stock_data.week52_high ++ "\n" ++
    "- Market Cap: " ++ format_market_cap stock_data.market_cap ++ "\n" ++
    "- P/E Ratio: " ++ optNumStr stock_data.pe_ratio ++ "\n" ++
    "- Sector: " ++ stock_data.sector.getD "N/A"

/-- The `'='*60` rule used by the report header and footer. -/
def eqLine : String := String.mk (List.replicate 60 '=')

/-- The report header section built by `report_generator_node`. -/
def headerText (company_name : String) : String :=
  "\n" ++ eqLine ++ "\nCOMPANY INTELLIGENCE REPORT: " ++ pyUpper company_name ++
  "\n" ++ eqLine ++ "\n"

/-- The sentiment marker chosen per article in the news section
(`sentiment_score` defaulting to 0; thresholds 0.2 and -0.2). -/
def sentimentIcon (article : Article) : String :=
  if article.sentiment_score.getD 0 > 1 / 5 then "🟢"
  else if article.sentiment_score.getD 0 < -(1 / 5) then "🔴"
  else "🟡"

/-- The two text lines the report emits per news article. -/
def articleLines (article : Article) : List String :=
  ["  " ++ sentimentIcon article ++ " " ++ article.headline.getD "N/A",
   "     Source: " ++ article.source.getD "Unknown" ++ " | " ++
     pyTitle (article.category.getD "general")]

/-- The news section of the report (top five articles). -/
def newsText (news_data : List Article) : String :=
  let news_lines := ((news_data.take 5).map articleLines).flatten
  "\n## 📰 Recent News Headlines\n" ++ joinSep "\n" news_lines ++ "\n"

/-- The stock-performance section of the report. -/
def stockText (stock_data : StockData) : String :=
  "\n## 📈 Stock Performance\n" ++ format_stock_for_summary stock_data ++ "\n"

/-- The market-analysis section of the report. -/
def analysisText (analysis : String) : String :=
  "\n## 💡 Market Analysis\n" ++ analysis ++ "\n"

/-- The risk-factors section of the report. -/
def riskText (risk_factors : List String) : String :=
  "\n## ⚠️ Risk Factors\n" ++
  joinSep "\n" (risk_factors.map (fun risk => "  ⚠️ " ++ risk)) ++ "\n"

/-- The disclaimer footer section of the report. -/
def footerText : String :=
  "\n" ++ eqLine ++
  "\nDISCLAIMER: This report is generated for informational purposes \n" ++
  "only and should not be considered as financial advice. Always \n" ++
  "conduct your own research and consult with qualified financial \n" ++
  "professionals before making investment decisions.\n" ++ eqLine ++ "\n"

/-- The `report_sections` list built by `report_generator_node` in
`src/orchestrator/supervisor.py`: header, then conditionally the stock, news,
analysis and risk sections, then the footer, mirroring the source's
sequential appends and guard conditions. -/
def reportSections (state : AgentState) : List String :=
  let company_name := state.company_name
  let news_data := state.news_data.getD []
  let stock_data := state.stock_data.getD emptyStock
  let analysis := state.analysis.getD ""
  let risk_factors := state.risk_factors.getD []
  let sections : List String := []
  let sections := sections ++ [headerText company_name]
  let sections :=
    if !stock_data.isEmptyDict && stock_data.error.isNone then
      sections ++ [stockText stock_data]
    else sections
  let sections :=
    if !news_data.isEmpty then sections ++ [newsText news_data] else sections
  let sections :=
    if !(analysis == "") then sections ++ [analysisText analysis] else sections
  let sections :=
    if !risk_factors.isEmpty then sections ++ [riskText risk_factors] else sections
  sections ++ [footerText]

/-- `report_generator_node` from `src/orchestrator/supervisor.py`: joins the
sections with newlines into `final_report` and returns the terminal stage's
partial update (it writes no `error` key). -/
def report_generator_node (state : AgentState) : StateUpdate :=
  { emptyUpdate with
      final_report := some (joinSep "\n" (reportSections state))
      current_agent := some "report_generator"
      messages := ["Final report generated"] }

/-- Python truthiness of `state.get("error")`: falsy when the key is absent
or holds the empty string. -/
def pyTruthyStrOpt : Option String → Bool
  | none => false
  | some s => !(s == "")

/-- `should_continue` from `src/orchestrator/supervisor.py`: the router.  A
truthy `error` routes to `"end"`; otherwise the marker `"data_collector"`
routes to `"analyst"`, `"analyst"` to `"report_generator"`, and anything else
(including the initial absent marker) to `"end"`. -/
def should_continue (state : AgentState) : String :=
  let current_agent := state.current_agent.getD ""
  let error := state.error
  if pyTruthyStrOpt error then "end"
  else if current_agent == "data_collector" then "analyst"
  else if current_agent == "analyst" then "report_generator"
  else "end"

/-- Modelled from the spec: the execution engine (LangGraph's compiled
`StateGraph`, external to the repository sources) driving the wiring built in
`create_intelligence_workflow`: entry point `data_collector`, conditional
edges through `should_continue` after `data_collector` and `analyst`, and
`report_generator → END`.  Per spec section 4.4 the engine invokes a stage,
merges its partial update into the aggregate state and consults the router
until Terminal.  Returns the final aggregate state together with the stream
of per-stage chunks `(node name, partial update)` that `app.stream` yields
and `run_intelligence_workflow` consumes. -/
def execWorkflow (collect : Collector) (analyze : Analyzer) (s0 : AgentState) :
    AgentState × List (String × StateUpdate) :=
  let u1 := data_collector_node collect s0
  let s1 := applyUpdate s0 u1
  if should_continue s1 == "analyst" then
    let u2 := analyst_node analyze s1
    let s2 := applyUpdate s1 u2
    if should_continue s2 == "report_generator" then
      let u3 := report_generator_node s2
      (applyUpdate s2 u3,
        [("data_collector", u1), ("analyst", u2), ("report_generator", u3)])
    else (s2, [("data_collector", u1), ("analyst", u2)])
  else (s1, [("data_collector", u1)])

/-- `run_intelligence_workflow` from `src/orchestrator/supervisor.py`: builds
the workflow, seeds the initial state, drains `app.stream` keeping the last
chunk, and returns that chunk's node output — i.e. the last executed stage's
partial update (`for node_name, node_state in final_state.items(): return
node_state`), falling back to `{}`. -/
def run_intelligence_workflow (collect : Collector) (analyze : Analyzer)
    (company_name : String) (thread_id : String) : StateUpdate :=
  let initial_state := create_initial_state company_name
  let stream := (execWorkflow collect analyze initial_state).snd
  let _ := thread_id
  match stream.getLast? with
  | some chunk => chunk.snd
  | none => emptyUpdate

/-- Python truthiness of the dict `run_intelligence_workflow` returns
(`if result and ...` in `src/main.py`). -/
def updateTruthy (u : StateUpdate) : Bool :=
  u.company_name.isSome || u.news_data.isSome || u.stock_data.isSome ||
  u.analysis.isSome || u.risk_factors.isSome || u.current_agent.isSome ||
  u.error.isSome || u.final_report.isSome || !u.messages.isEmpty

/-- The tail of `main` in `src/main.py` after the workflow call is decided:
on a normal return the process prints either the report (when `result` is
truthy and has a `"final_report"` key) or an error message, and in both
cases falls off `main` with exit code 0; only the `except` branch calls
`sys.exit(1)`.  Result: (exit code, whether the final report was printed). -/
def mainResult (outcome : Except String StateUpdate) : Nat × Bool :=
  match outcome with
  | Except.error _ => (1, false)
  | Except.ok result => (0, updateTruthy result && result.final_report.isSome)

/-- The CLI `main` from `src/main.py` on a workflow call that returns (in the
embedding `run_intelligence_workflow` is total, matching the source where
stage-level exceptions are caught inside the nodes). -/
def cliMain (collect : Collector) (analyze : Analyzer)
    (company : String) (thread_id : String) : Nat × Bool :=
  mainResult (Except.ok (run_intelligence_workflow collect analyze company thread_id))

/-- A concrete news article, shaped like the simulated-news dicts of
`src/tools/news_fetcher.py`. -/
def demoArticle : Article :=
  { headline := some "Acme Corp Reports Strong Q3 Earnings"
    source := some "Reuters"
    category := some "earnings"
    sentiment_score := some (1 / 2) }

/-- A concrete stock dict, shaped like the simulated data of
`src/tools/stock_data.py`. -/
def demoStock : StockData :=
  { error := none
    current_price := some 123
    currency := some "USD"
    daily_change_percent := some 2
    monthly_change_percent := some 5
    week52_low := some 100
    week52_high := some 150
    market_cap := some 50000000000
    pe_ratio := some 25
    sector := some "Technology" }

/-- The stock dict `stock_data_tool` returns on an exception: only the
`error` (and `company_name`) keys; in particular truthy and carrying an
`"error"` key. -/
def errStock : StockData :=
  { emptyStock with error := some "Failed to fetch stock data: boom" }

/-- A concrete successful collection result. -/
def demoCollect : CollectResult := ⟨[demoArticle], demoStock⟩

/-- A collector oracle that succeeds with the demo data. -/
def okCollect : Collector := fun _ => Except.ok demoCollect

/-- A collector oracle that raises (failure injected in the first stage). -/
def collectFail : Collector := fun _ => Except.error "Simulated collection failure"

/-- A collector oracle that raises with an empty exception message
(`str(e) == ""`). -/
def collectFailEmptyMsg : Collector := fun _ => Except.error ""

/-- A concrete successful analysis result. -/
def demoAnalysis : AnalyzeResult :=
  ⟨"Acme Corp shows solid fundamentals.", ["Market volatility risk"]⟩

/-- An analyzer oracle that succeeds with the demo analysis. -/
def okAnalyze : Analyzer := fun _ _ _ => Except.ok demoAnalysis

/-- An analyzer oracle that raises (failure injected in the second stage). -/
def analyzeFail : Analyzer := fun _ _ _ => Except.error "Simulated analysis failure"

/-- Substring containment: `sub` occurs somewhere in `s`. -/
def containsSub (s sub : String) : Prop := ∃ p q, s = p ++ sub ++ q

/-- Everything of the report header before the upper-cased company name. -/
def hdrPre : String := "\n" ++ eqLine ++ "\nCOMPANY INTELLIGENCE REPORT: "

/-- Everything of the report header after the upper-cased company name. -/
def hdrPost : String := "\n" ++ eqLine ++ "\n"

/-- A freshly seeded state: marker and error absent — the router's
initial/none input. -/
def stInitEx : AgentState :=
  { company_name := "Acme Corp", news_data := none, stock_data := none
    analysis := none, risk_factors := none, current_agent := none
    error := none, final_report := none, messages := [] }

/-- A mid-pipeline state whose collection stage failed (truthy error). -/
def stErrEx : AgentState :=
  { stInitEx with current_agent := some "data_collector", error := some "boom" }

/-- A state marked after a clean collection stage. -/
def stCollEx : AgentState :=
  { stInitEx with
      current_agent := some "data_collector"
      news_data := some [demoArticle]
      stock_data := some demoStock }

/-- A state marked after a clean analysis stage. -/
def stAnalEx : AgentState :=
  { stCollEx with
      current_agent := some "analyst"
      analysis := some "All good."
      risk_factors := some ["Risk A"] }

/-- Two states agreeing on the marker and the error but on nothing else
(router inputs for the purity check). -/
def stTwinA : AgentState :=
  { company_name := "Acme Corp", news_data := some [demoArticle]
    stock_data := some demoStock, analysis := some "A view."
    risk_factors := some ["Risk A"], current_agent := some "data_collector"
    error := none, final_report := none, messages := ["log entry a"] }

/-- See `stTwinA`: same marker and error, every other field different. -/
def stTwinB : AgentState :=
  { company_name := "Other Corp", news_data := none
    stock_data := none, analysis := none
    risk_factors := none, current_agent := some "data_collector"
    error := none, final_report := some "old", messages := [] }

/-- A report-stage input whose stock dict is present (truthy) but carries an
`"error"` key — the `stock_data_tool` exception shape stored by a successful
merge. -/
def sC6 : AgentState :=
  { company_name := "Acme Corp", news_data := some [demoArticle]
    stock_data := some errStock, analysis := some "Acme is growing."
    risk_factors := some ["Risk A"], current_agent := some "analyst"
    error := none, final_report := none, messages := [] }

/-- The aggregate state after the collection stage of the demo Acme run. -/
def sAcme1 : AgentState :=
  applyUpdate (create_initial_state "Acme Corp")
    (data_collector_node okCollect (create_initial_state "Acme Corp"))

/-- The aggregate state after the analysis stage of the demo Acme run. -/
def sAcme2 : AgentState := applyUpdate sAcme1 (analyst_node okAnalyze sAcme1)

/-! ## Helper lemmas -/

theorem strExt {a b : String} (h : a.data = b.data) : a = b := by
  cases a; cases b; exact congrArg String.mk h

theorem strAppend_data (a b : String) : (a ++ b).data = a.data ++ b.data := by
  cases a; cases b; rfl

theorem strAppend_assoc (a b c : String) : a ++ b ++ c = a ++ (b ++ c) := by
  apply strExt; simp [strAppend_data, List.append_assoc]

theorem strAppend_empty (a : String) : a ++ "" = a := by
  apply strExt
  have h : ("" : String).data = [] := rfl
  simp [strAppend_data, h]

theorem strEmpty_append (a : String) : "" ++ a = a := by
  apply strExt
  have h : ("" : String).data = [] := rfl
  simp [strAppend_data, h]

theorem joinSep_cons_cons (sep x y : String) (ys : List String) :
    joinSep sep (x :: y :: ys) = x ++ sep ++ joinSep sep (y :: ys) := rfl

theorem joinSep_starts (sep x : String) (xs : List String) :
    ∃ t, joinSep sep (x :: xs) = x ++ t := by
  cases xs with
  | nil => exact ⟨"", (strAppend_empty x).symm⟩
  | cons y ys =>
      exact ⟨sep ++ joinSep sep (y :: ys),
        by rw [joinSep_cons_cons, strAppend_assoc]⟩

theorem joinSep_ends (sep z : String) :
    ∀ xs : List String, ∃ p, joinSep sep (xs ++ [z]) = p ++ z := by
  intro xs
  induction xs with
  | nil => exact ⟨"", (strEmpty_append z).symm⟩
  | cons x xs ih =>
      obtain ⟨p, hp⟩ := ih
      refine ⟨x ++ sep ++ p, ?_⟩
      cases hxs : xs ++ [z] with
      | nil => exact absurd hxs (by simp)
      | cons y ys =>
          rw [List.cons_append, hxs, joinSep_cons_cons, ← hxs, hp,
            strAppend_assoc (x ++ sep) p z]

theorem containsSub_append_right {s sub : String} (h : containsSub s sub)
    (t : String) : containsSub (s ++ t) sub := by
  obtain ⟨p, q, rfl⟩ := h
  exact ⟨p, q ++ t, strAppend_assoc (p ++ sub) q t⟩

theorem headerText_decomp (c : String) :
    headerText c = hdrPre ++ pyUpper c ++ hdrPost := by
  apply strExt
  simp [headerText, hdrPre, hdrPost, strAppend_data, List.append_assoc]

theorem reportSections_decomp (s : AgentState) :
    reportSections s =
      [headerText s.company_name] ++
      (if !(s.stock_data.getD emptyStock).isEmptyDict &&
          (s.stock_data.getD emptyStock).error.isNone then
        [stockText (s.stock_data.getD emptyStock)]
      else []) ++
      (if !(s.news_data.getD []).isEmpty then [newsText (s.news_data.getD [])]
      else []) ++
      (if !(s.analysis.getD "" == "") then [analysisText (s.analysis.getD "")]
      else []) ++
      (if !(s.risk_factors.getD []).isEmpty then
        [riskText (s.risk_factors.getD [])]
      else []) ++
      [footerText] := by
  simp only [reportSections]
  split <;> split <;> split <;> split <;> simp

theorem reportSections_shape (s : AgentState) :
    ∃ mid, reportSections s = headerText s.company_name :: (mid ++ [footerText]) := by
  rw [reportSections_decomp]
  refine ⟨(if !(s.stock_data.getD emptyStock).isEmptyDict &&
      (s.stock_data.getD emptyStock).error.isNone then
      [stockText (s.stock_data.getD emptyStock)] else []) ++
    (if !(s.news_data.getD []).isEmpty then [newsText (s.news_data.getD [])]
      else []) ++
    (if !(s.analysis.getD "" == "") then [analysisText (s.analysis.getD "")]
      else []) ++
    (if !(s.risk_factors.getD []).isEmpty then
      [riskText (s.risk_factors.getD [])] else []), ?_⟩
  simp [List.append_assoc]

theorem repl_repl {α : Type} (a b c : Option α) :
    repl a (repl b c) = repl (repl a b) c := by
  cases a <;> cases b <;> rfl

theorem getD_repl {α : Type} (a b : Option α) (c : α) :
    (repl a b).getD c = a.getD (b.getD c) := by
  cases a <;> cases b <;> rfl

theorem truthy_and_isSome (u : StateUpdate) :
    (updateTruthy u && u.final_report.isSome) = u.final_report.isSome := by
  cases h : u.final_report <;> simp [updateTruthy, h]

theorem run_collect_err (collect : Collector) (analyze : Analyzer)
    (c t e : String) (hc : collect c = Except.error e) (he : e ≠ "") :
    run_intelligence_workflow collect analyze c t =
      { emptyUpdate with
          error := some e
          current_agent := some "data_collector"
          messages := ["Error collecting data: " ++ e] } := by
  have hbe : (e == "") = false := by simp [he]
  simp only [run_intelligence_workflow, execWorkflow, data_collector_node,
    create_initial_state]
  rw [hc]
  simp [should_continue, pyTruthyStrOpt, applyUpdate, repl, hbe]

theorem run_ok_analyze_err (collect : Collector) (analyze : Analyzer)
    (c t : String) (r : CollectResult) (e2 : String)
    (hc : collect c = Except.ok r)
    (ha : analyze c r.news_data r.stock_data = Except.error e2)
    (he2 : e2 ≠ "") :
    run_intelligence_workflow collect analyze c t =
      { emptyUpdate with
          error := some e2
          current_agent := some "analyst"
          messages := ["Error analyzing data: " ++ e2] } := by
  have hbe : (e2 == "") = false := by simp [he2]
  simp only [run_intelligence_workflow, execWorkflow, data_collector_node,
    analyst_node, create_initial_state]
  rw [hc]
  simp only [applyUpdate, repl, emptyUpdate, Option.getD_some, Option.getD_none]
  rw [ha]
  simp [should_continue, pyTruthyStrOpt, applyUpdate, repl, hbe]

theorem run_final_or_error (collect : Collector) (analyze : Analyzer)
    (c t : String) :
    (run_intelligence_workflow collect analyze c t).final_report.isSome = true ∨
    (run_intelligence_workflow collect analyze c t).error.isSome = true := by
  rcases hc : collect c with e | r
  · by_cases he : e = ""
    · subst he
      rcases ha : analyze c [] emptyStock with e2 | a2
      · by_cases he2 : e2 = ""
        · subst he2
          left
          simp only [run_intelligence_workflow, execWorkflow,
            data_collector_node, analyst_node, create_initial_state]
          rw [hc]
          simp only [applyUpdate, repl, emptyUpdate, Option.getD_some,
            Option.getD_none]
          rw [ha]
          simp [should_continue, pyTruthyStrOpt, applyUpdate, repl,
            report_generator_node]
        · right
          have hbe : (e2 == "") = false := by simp [he2]
          simp only [run_intelligence_workflow, execWorkflow,
            data_collector_node, analyst_node, create_initial_state]
          rw [hc]
          simp only [applyUpdate, repl, emptyUpdate, Option.getD_some,
            Option.getD_none]
          rw [ha]
          simp [should_continue, pyTruthyStrOpt, applyUpdate, repl, hbe]
      · left
        simp only [run_intelligence_workflow, execWorkflow,
          data_collector_node, analyst_node, create_initial_state]
        rw [hc]
        simp only [applyUpdate, repl, emptyUpdate, Option.getD_some,
          Option.getD_none]
        rw [ha]
        simp [should_continue, pyTruthyStrOpt, applyUpdate, repl,
          report_generator_node]
    · right
      rw [run_collect_err collect analyze c t e hc he]
      rfl
  · rcases ha : analyze c r.news_data r.stock_data with e2 | a2
    · by_cases he2 : e2 = ""
      · subst he2
        left
        simp only [run_intelligence_workflow, execWorkflow,
          data_collector_node, analyst_node, create_initial_state]
        rw [hc]
        simp only [applyUpdate, repl, emptyUpdate, Option.getD_some,
          Option.getD_none]
        rw [ha]
        simp [should_continue, pyTruthyStrOpt, applyUpdate, repl,
          report_generator_node]
      · right
        rw [run_ok_analyze_err collect analyze c t r e2 hc ha he2]
        rfl
    · left
      simp only [run_intelligence_workflow, execWorkflow,
        data_collector_node, analyst_node, create_initial_state]
      rw [hc]
      simp only [applyUpdate, repl, emptyUpdate, Option.getD_some,
        Option.getD_none]
      rw [ha]
      simp [should_continue, pyTruthyStrOpt, applyUpdate, repl,
        report_generator_node]

/-! ## Claims -/

/-- C1: evaluation of the code defect.  On a fully successful run the value
`run_intelligence_workflow` hands the caller is only the terminal stage's
partial update: its `final_report` is present but the `news_data`,
`stock_data` and `analysis` accumulated by the completed earlier stages are
absent, even though the engine's final aggregate state holds them all — so
the entry point does not return "a state containing the accumulated fields of
every completed stage" as the claim (and the function's own docstring)
states. -/
theorem C1_returns_last_update_only :
    (run_intelligence_workflow okCollect okAnalyze "Acme Corp" "default").final_report.isSome = true ∧
    (run_intelligence_workflow okCollect okAnalyze "Acme Corp" "default").news_data = none ∧
    (run_intelligence_workflow okCollect okAnalyze "Acme Corp" "default").stock_data = none ∧
    (run_intelligence_workflow okCollect okAnalyze "Acme Corp" "default").analysis = none ∧
    (run_intelligence_workflow okCollect okAnalyze "Acme Corp" "default").error = none ∧
    (execWorkflow okCollect okAnalyze (create_initial_state "Acme Corp")).fst.news_data = some [demoArticle] ∧
    (execWorkflow okCollect okAnalyze (create_initial_state "Acme Corp")).fst.stock_data = some demoStock ∧
    (execWorkflow okCollect okAnalyze (create_initial_state "Acme Corp")).fst.analysis = some "Acme Corp shows solid fundamentals." ∧
    (execWorkflow okCollect okAnalyze (create_initial_state "Acme Corp")).fst.final_report.isSome = true :=
  ⟨rfl, rfl, rfl, rfl, rfl, rfl, rfl, rfl, rfl⟩

/-- C2: evaluation of the code defect.  With a failure injected in the
analysis stage: no stage after it executes (the stream stops at `analyst`),
`final_report` stays null and the error is recorded — but the fields the
collection stage produced, though still present in the engine's aggregate
state, are missing from the value the run entry point returns, contrary to
the claim's retention clause. -/
theorem C2_short_circuit_eval :
    (execWorkflow okCollect analyzeFail (create_initial_state "Acme Corp")).snd.map Prod.fst = ["data_collector", "analyst"] ∧
    (run_intelligence_workflow okCollect analyzeFail "Acme Corp" "default").final_report = none ∧
    (run_intelligence_workflow okCollect analyzeFail "Acme Corp" "default").error = some "Simulated analysis failure" ∧
    (execWorkflow okCollect analyzeFail (create_initial_state "Acme Corp")).fst.news_data = some [demoArticle] ∧
    (execWorkflow okCollect analyzeFail (create_initial_state "Acme Corp")).fst.stock_data = some demoStock ∧
    (run_intelligence_workflow okCollect analyzeFail "Acme Corp" "default").news_data = none ∧
    (run_intelligence_workflow okCollect analyzeFail "Acme Corp" "default").stock_data = none :=
  ⟨rfl, rfl, rfl, rfl, rfl, rfl, rfl⟩

/-- C3 counterexample: on the initial state (marker and error both absent)
the router `should_continue` returns `"end"`, not the pipeline's first stage
`"data_collector"` as the claim's first transition row states; entry into the
first stage is wired by the graph's entry point, not by the router. -/
theorem C3_cex :
    stInitEx.current_agent = none ∧ stInitEx.error = none ∧
    should_continue stInitEx = "end" ∧ ("end" : String) ≠ "data_collector" := by
  decide

/-- C3 (amended): the transition table `should_continue` actually implements,
as a pure function of the stage marker and the error field: any truthy error
routes to Terminal; with no truthy error, marker `"data_collector"` routes to
`"analyst"` and `"analyst"` to `"report_generator"`; every other marker —
including the initial/none marker and the last stage `"report_generator"`,
the latter regardless of error — routes to Terminal. -/
theorem C3_router_table (s : AgentState) :
    (pyTruthyStrOpt s.error = true → should_continue s = "end") ∧
    (pyTruthyStrOpt s.error = false → s.current_agent.getD "" = "data_collector" →
      should_continue s = "analyst") ∧
    (pyTruthyStrOpt s.error = false → s.current_agent.getD "" = "analyst" →
      should_continue s = "report_generator") ∧
    (s.current_agent.getD "" ≠ "data_collector" → s.current_agent.getD "" ≠ "analyst" →
      should_continue s = "end") := by
  refine ⟨?_, ?_, ?_, ?_⟩
  · intro h; simp [should_continue, h]
  · intro h1 h2; simp [should_continue, h1, h2]
  · intro h1 h2; simp [should_continue, h1, h2]
  · intro h1 h2
    by_cases he : pyTruthyStrOpt s.error = true
    · simp [should_continue, he]
    · simp [should_continue, he, h1, h2]

/-- C3 witness: each row of the amended table at a concrete state. -/
theorem C3_router_table_witness :
    should_continue stErrEx = "end" ∧ should_continue stCollEx = "analyst" ∧
    should_continue stAnalEx = "report_generator" ∧ should_continue stInitEx = "end" :=
  ⟨(C3_router_table stErrEx).1 (by decide),
   (C3_router_table stCollEx).2.1 (by decide) (by decide),
   (C3_router_table stAnalEx).2.2.1 (by decide) (by decide),
   (C3_router_table stInitEx).2.2.2 (by decide) (by decide)⟩

/-- C4: the router is deterministic and side-effect-free on its input — it is
a pure function of the unmutated state's marker and error fields, so any two
calls on the same (or field-wise equal) state return the same next stage. -/
theorem C4_router_pure (s1 s2 : AgentState)
    (hmarker : s1.current_agent = s2.current_agent)
    (herr : s1.error = s2.error) :
    should_continue s1 = should_continue s2 := by
  simp [should_continue, hmarker, herr]

/-- C4 witness: two states agreeing only on marker and error route alike. -/
theorem C4_router_pure_witness :
    should_continue stTwinA = should_continue stTwinB :=
  C4_router_pure stTwinA stTwinB rfl rfl

/-- C5 counterexample: with a failure injected in the collection stage the run
produces no final report, yet `main` exits with code 0 (it prints an error
message and falls through without calling `sys.exit`), contradicting the
claim's "non-zero exit code otherwise". -/
theorem C5_cex :
    cliMain collectFail okAnalyze "Acme Corp" "default" = (0, false) ∧
    (run_intelligence_workflow collectFail okAnalyze "Acme Corp" "default").final_report = none :=
  ⟨rfl, rfl⟩

/-- C5 (amended): whenever the workflow call returns, the CLI exits with code
0 — printing the report exactly when the result has a `final_report` key, and
an error message otherwise; a non-zero exit (1) happens only when the
workflow call raises. -/
theorem C5_exit_codes :
    (∀ (collect : Collector) (analyze : Analyzer) (c t : String),
      (cliMain collect analyze c t).fst = 0 ∧
      ((cliMain collect analyze c t).snd = true ↔
        (run_intelligence_workflow collect analyze c t).final_report.isSome = true)) ∧
    (∀ e : String, mainResult (Except.error e) = (1, false)) := by
  refine ⟨?_, fun e => rfl⟩
  intro collect analyze c t
  refine ⟨rfl, ?_⟩
  show (updateTruthy _ && _) = true ↔ _
  rw [truthy_and_isSome]

/-- C6 counterexample: a report-stage input whose stock data is present
(truthy, from the stock tool's exception path) but carries an `"error"` key:
the stock block is omitted from the report even though its source data is not
absent, refuting the claim's "omitted exactly when its source data is
absent". -/
theorem C6_cex :
    sC6.stock_data = some errStock ∧ errStock.isEmptyDict = false ∧
    reportSections sC6 = [headerText "Acme Corp", newsText [demoArticle],
      analysisText "Acme is growing.", riskText ["Risk A"], footerText] ∧
    stockText errStock ∉ reportSections sC6 := by
  refine ⟨rfl, rfl, rfl, ?_⟩
  decide

/-- C6 (amended): the report has the fixed section order header, stock block,
news block, analysis block, risk block, footer, where each middle block is
omitted exactly when its source data is absent or empty — the stock block
also when the stock data carries an `"error"` key; and the demo Acme run's
returned state has a non-null final report whose header contains the literal
`"ACME CORP"`, with `error` null. -/
theorem C6_report_layout :
    (∀ s : AgentState, reportSections s =
      [headerText s.company_name] ++
      (if !(s.stock_data.getD emptyStock).isEmptyDict &&
          (s.stock_data.getD emptyStock).error.isNone then
        [stockText (s.stock_data.getD emptyStock)]
      else []) ++
      (if !(s.news_data.getD []).isEmpty then [newsText (s.news_data.getD [])]
      else []) ++
      (if !(s.analysis.getD "" == "") then [analysisText (s.analysis.getD "")]
      else []) ++
      (if !(s.risk_factors.getD []).isEmpty then
        [riskText (s.risk_factors.getD [])]
      else []) ++
      [footerText]) ∧
    (∃ report,
      (run_intelligence_workflow okCollect okAnalyze "Acme Corp" "default").final_report = some report ∧
      containsSub report "ACME CORP" ∧
      (run_intelligence_workflow okCollect okAnalyze "Acme Corp" "default").error = none) := by
  refine ⟨reportSections_decomp, ?_⟩
  have hfr : (run_intelligence_workflow okCollect okAnalyze "Acme Corp" "default").final_report =
      some (joinSep "\n" (reportSections sAcme2)) := rfl
  obtain ⟨mid, hmid⟩ := reportSections_shape sAcme2
  refine ⟨joinSep "\n" (reportSections sAcme2), hfr, ?_, rfl⟩
  rw [hmid]
  obtain ⟨tl, htl⟩ := joinSep_starts "\n" (headerText sAcme2.company_name) (mid ++ [footerText])
  rw [htl]
  have hhdr : containsSub (headerText sAcme2.company_name) "ACME CORP" := by
    have h1 := headerText_decomp sAcme2.company_name
    have h2 : pyUpper sAcme2.company_name = "ACME CORP" := by decide
    rw [h2] at h1
    exact ⟨hdrPre, hdrPost, h1⟩
  exact containsSub_append_right hhdr tl

/-- C7 counterexample: with a failure injected in the collection stage the
returned state's stage marker is the implementation's node name
`"data_collector"`, not the string `"collection"` the claim states. -/
theorem C7_cex :
    (run_intelligence_workflow collectFail okAnalyze "Acme Corp" "default").current_agent = some "data_collector" ∧
    (run_intelligence_workflow collectFail okAnalyze "Acme Corp" "default").current_agent ≠ some "collection" ∧
    (run_intelligence_workflow collectFail okAnalyze "Acme Corp" "default").error = some "Simulated collection failure" := by
  decide

/-- C7 (amended): if the collection stage fails with a non-empty message, the
returned state has stage marker `"data_collector"` (the implementation's name
for the collection stage), a non-null error equal to the failure message, and
the analysis and report fields absent. -/
theorem C7_collection_failure (analyze : Analyzer) (c t e : String)
    (he : e ≠ "") :
    (run_intelligence_workflow (fun _ => Except.error e) analyze c t).current_agent = some "data_collector" ∧
    (run_intelligence_workflow (fun _ => Except.error e) analyze c t).error = some e ∧
    (run_intelligence_workflow (fun _ => Except.error e) analyze c t).analysis = none ∧
    (run_intelligence_workflow (fun _ => Except.error e) analyze c t).risk_factors = none ∧
    (run_intelligence_workflow (fun _ => Except.error e) analyze c t).final_report = none := by
  rw [run_collect_err (fun _ => Except.error e) analyze c t e rfl he]
  exact ⟨rfl, rfl, rfl, rfl, rfl⟩

/-- C7 witness: the amended statement at a concrete injected failure. -/
theorem C7_collection_failure_witness :
    (run_intelligence_workflow (fun _ => Except.error "Simulated collection failure") okAnalyze "Acme Corp" "default").current_agent = some "data_collector" ∧
    (run_intelligence_workflow (fun _ => Except.error "Simulated collection failure") okAnalyze "Acme Corp" "default").error = some "Simulated collection failure" ∧
    (run_intelligence_workflow (fun _ => Except.error "Simulated collection failure") okAnalyze "Acme Corp" "default").analysis = none ∧
    (run_intelligence_workflow (fun _ => Except.error "Simulated collection failure") okAnalyze "Acme Corp" "default").risk_factors = none ∧
    (run_intelligence_workflow (fun _ => Except.error "Simulated collection failure") okAnalyze "Acme Corp" "default").final_report = none :=
  C7_collection_failure okAnalyze "Acme Corp" "default"
    "Simulated collection failure" (by decide)

/-- C8: the event-log merge appends new entries at the end preserving call
order, and merging is associative — applying two sequential partial updates
one at a time equals applying them batched (order preserved), both on the
event log and on the whole state. -/
theorem C8_merge_append_assoc (s : AgentState) (u1 u2 : StateUpdate) :
    (applyUpdate (applyUpdate s u1) u2).messages =
      s.messages ++ (u1.messages ++ u2.messages) ∧
    applyUpdate (applyUpdate s u1) u2 = applyUpdate s (combineUpdates u1 u2) := by
  constructor
  · simp [applyUpdate, List.append_assoc]
  · simp [applyUpdate, combineUpdates, AgentState.mk.injEq, repl_repl,
      getD_repl, List.append_assoc]

/-- C9 counterexample: a collection-stage failure whose exception message is
the empty string — a stage that did not complete without error — is not
detected by the router (Python truthiness), the pipeline keeps going and the
returned state carries a non-null `final_report`, refuting "final output is
non-null only if every upstream stage completed without error". -/
theorem C9_cex :
    collectFailEmptyMsg "Acme Corp" = Except.error "" ∧
    (run_intelligence_workflow collectFailEmptyMsg okAnalyze "Acme Corp" "default").final_report.isSome = true ∧
    (execWorkflow collectFailEmptyMsg okAnalyze (create_initial_state "Acme Corp")).fst.error = some "" :=
  ⟨rfl, rfl, rfl⟩

/-- C9 (amended): the caller always receives a state with `final_report` or
`error` defined; and `final_report` is non-null only if no upstream stage
failed with a non-empty (truthy) message — a failure carrying an empty
message is not detected by the router and does not prevent the final
report. -/
theorem C9_output_or_error (collect : Collector) (analyze : Analyzer)
    (c t : String) :
    ((run_intelligence_workflow collect analyze c t).final_report.isSome = true ∨
      (run_intelligence_workflow collect analyze c t).error.isSome = true) ∧
    (∀ e, collect c = Except.error e → e ≠ "" →
      (run_intelligence_workflow collect analyze c t).final_report = none) ∧
    (∀ r e2, collect c = Except.ok r →
      analyze c r.news_data r.stock_data = Except.error e2 → e2 ≠ "" →
      (run_intelligence_workflow collect analyze c t).final_report = none) := by
  refine ⟨run_final_or_error collect analyze c t, ?_, ?_⟩
  · intro e hc he
    rw [run_collect_err collect analyze c t e hc he]
    rfl
  · intro r e2 hc ha he2
    rw [run_ok_analyze_err collect analyze c t r e2 hc ha he2]
    rfl

/-- C9 witness: the amended statement at concrete failing runs — a collection
failure and an analysis failure, both with non-empty messages, leave the
final report null; and the disjunction at the first of them. -/
theorem C9_output_or_error_witness :
    ((run_intelligence_workflow collectFail okAnalyze "Acme Corp" "default").final_report.isSome = true ∨
      (run_intelligence_workflow collectFail okAnalyze "Acme Corp" "default").error.isSome = true) ∧
    (run_intelligence_workflow collectFail okAnalyze "Acme Corp" "default").final_report = none ∧
    (run_intelligence_workflow okCollect analyzeFail "Acme Corp" "default").final_report = none :=
  ⟨(C9_output_or_error collectFail okAnalyze "Acme Corp" "default").1,
   (C9_output_or_error collectFail okAnalyze "Acme Corp" "default").2.1
     "Simulated collection failure" rfl (by decide),
   (C9_output_or_error okCollect analyzeFail "Acme Corp" "default").2.2
     demoCollect "Simulated analysis failure" rfl rfl (by decide)⟩

/-- C10: for every input state — including all fields absent — the report
generator returns a partial update whose `final_report` is a non-null string
beginning with the header block (which contains the upper-cased company
name) and ending with the disclaimer footer, and the update carries no
`error` field. -/
theorem C10_report_total (s : AgentState) :
    ∃ report,
      (report_generator_node s).final_report = some report ∧
      (∃ tl, report = headerText s.company_name ++ tl) ∧
      (∃ p, report = p ++ footerText) ∧
      containsSub (headerText s.company_name) (pyUpper s.company_name) ∧
      (report_generator_node s).error = none := by
  obtain ⟨mid, hmid⟩ := reportSections_shape s
  refine ⟨joinSep "\n" (reportSections s), rfl, ?_, ?_, ?_, rfl⟩
  · rw [hmid]
    exact joinSep_starts "\n" (headerText s.company_name) (mid ++ [footerText])
  · rw [hmid,
      show headerText s.company_name :: (mid ++ [footerText]) =
        (headerText s.company_name :: mid) ++ [footerText] from by simp]
    exact joinSep_ends "\n" footerText (headerText s.company_name :: mid)
  · exact ⟨hdrPre, hdrPost, headerText_decomp s.company_name⟩

end SoulpageIntel
